import Mathlib

/-!
Verification of `tc.py`, a CLI utility that triggers TeamCity builds by
formatting an XML payload and POSTing it to a REST endpoint.

The shallow embedding below translates the logical core of `src/tc.py`:
* `dict_as_properties` — the property formatter (Python dict modelled as an
  association list in iteration order);
* `request_xml` — the request builder (`_REQUESTBASE.format(...)` is modelled
  by direct string concatenation at the template's substitution points);
* `send_request_result` — the response-handling part of `send_request`,
  modelled as a pure function from the HTTP response to the printed lines and
  the process exit code (the HTTP POST itself is the external boundary);
* `tc_mvn_args`, `start_linux_data`, `start_ha_data`, `tc_linux_data`,
  `tc_har_data` — the maven-argument transform and the two presets, restricted
  to the XML document they hand to `send_request`.
-/

/-- `_NEO4JLINUX_ID` from tc.py. -/
def _NEO4JLINUX_ID : String := "JonasHaRequests_Neo4jCustom"

/-- `_HAR_ID` from tc.py. -/
def _HAR_ID : String := "JonasHaRequests_HarBranchArtifacts"

/-- `_REQUESTPROPERTYBASE.format(name=k, value=v)`: the template
`'\n    <property name="{name}" value="{value}"/>'` with both placeholders
substituted (Python `str.format` performs no escaping). -/
def _REQUESTPROPERTYBASE (name value : String) : String :=
  "\n    <property name=\"" ++ name ++ "\" value=\"" ++ value ++ "\"/>"

/-- `dict_as_properties(props)` from tc.py: starts from the empty string and
appends `_REQUESTPROPERTYBASE.format(name=k, value=v)` for each entry of the
dict, in iteration order.  A Python dict is modelled as an association list
whose order is the dict's iteration order. -/
def dict_as_properties (props : List (String × String)) : String :=
  props.foldl (fun xml kv => xml ++ _REQUESTPROPERTYBASE kv.1 kv.2) ""

/-- Python `str(personal).lower()` for a bool: `str(True) = "True"`,
`"True".lower() = "true"`, and likewise `"false"`. -/
def pyBoolLower (personal : Bool) : String :=
  if personal then "true" else "false"

/-- The `props is None` defaulting at the top of `request_xml`. -/
def props_or_empty : Option String → String
  | none => ""
  | some s => s

/-- `request_xml(buildid, personal, branch, remote, props=None)` from tc.py:
`_REQUESTBASE.format(buildid=buildid, remote=remote, branch=branch,
props=props, personal=str(personal).lower())`, written as concatenation at the
template's substitution points (the literal chunks, concatenated in order,
spell `_REQUESTBASE` verbatim; the triple-quoted template starts and ends with
a newline). -/
def request_xml (buildid : String) (personal : Bool) (branch remote : String)
    (props : Option String := none) : String :=
  "\n<build personal=\"" ++ pyBoolLower personal
    ++ "\" branchName=\"" ++ branch
    ++ "\">\n  <buildType id=\"" ++ buildid
    ++ "\"/>\n  <comment><text>Triggered from CLI</text></comment>\n  <properties>"
    ++ "\n    <property name=\"remote\" value=\"" ++ remote ++ "\"/>"
    ++ "\n    <property name=\"branch\" value=\"" ++ branch ++ "\"/>"
    ++ props_or_empty props
    ++ "\n  </properties>\n</build>\n"

/-- `tc_mvn_args(original)` from tc.py. -/
def tc_mvn_args (original : String) : String :=
  "-DfailIfNoTests=false -Dmaven.test.failure.ignore=true --show-version " ++ original

/-- The XML document built by `start_linux`: `"%{}%".format(jdk)` wraps the jdk
in percent signs; the three user properties are formatted in the dict's
iteration (insertion) order and handed to `request_xml` with `_NEO4JLINUX_ID`.
(`start_linux` then passes the document to `send_request`.) -/
def start_linux_data (personal : Bool) (branch remote mvngoals mvnargs jdk : String) : String :=
  request_xml _NEO4JLINUX_ID personal branch remote
    (some (dict_as_properties
      [("project-default-jdk", "%" ++ jdk ++ "%"),
       ("maven-goals", mvngoals),
       ("maven-args", mvnargs)]))

/-- The XML document built by `start_ha`: the single `run-args` property,
handed to `request_xml` with `_HAR_ID`. -/
def start_ha_data (personal : Bool) (branch remote arguments : String) : String :=
  request_xml _HAR_ID personal branch remote
    (some (dict_as_properties [("run-args", arguments)]))

/-- The XML document submitted by the `linux` subcommand (`TC.linux`): it calls
`start_linux` with `tc_mvn_args(args.maven_args)` as the maven arguments. -/
def tc_linux_data (personal : Bool) (branch remote maven_goals maven_args jdk : String) : String :=
  start_linux_data personal branch remote maven_goals (tc_mvn_args maven_args) jdk

/-- The XML document submitted by the `har` subcommand (`TC.har`): it calls
`start_ha` with `args.arguments` unchanged. -/
def tc_har_data (personal : Bool) (branch remote arguments : String) : String :=
  start_ha_data personal branch remote arguments

/-- Minimal JSON value type for what `resp.json()` may return. -/
inductive JVal where
  | null : JVal
  | str : String → JVal
  | num : Int → JVal
  | obj : List (String × JVal) → JVal

/-- A single apostrophe, as used by Python `repr` of strings. -/
def squote : String := String.singleton (Char.ofNat 39)

mutual
/-- Python `str`/`repr` of a parsed JSON value (a dict prints as
`\x7b'k': v, ...\x7d`, strings inside a dict print with quotes, `None` for
null), as produced by `print(resp.json())`. -/
def pyReprJ : JVal → String
  | JVal.null => "None"
  | JVal.str s => squote ++ s ++ squote
  | JVal.num n => toString n
  | JVal.obj fields => "\x7b" ++ pyReprFields fields ++ "\x7d"

/-- Comma-separated `'key': value` entries of a dict repr. -/
def pyReprFields : List (String × JVal) → String
  | [] => ""
  | [(k, v)] => squote ++ k ++ squote ++ ": " ++ pyReprJ v
  | (k, v) :: kv :: rest =>
      squote ++ k ++ squote ++ ": " ++ pyReprJ v ++ ", " ++ pyReprFields (kv :: rest)
end

/-- Python `print(x)` for the result of `dict.get`: `None` prints as "None", a
string prints as itself, anything else via its `str` form. -/
def pyPrintOpt : Option JVal → String
  | none => "None"
  | some (JVal.str s) => s
  | some j => pyReprJ j

/-- `d.get(k)` on a parsed JSON value: defined (returning a Python-level
`Option`) only when the value is a dict; on any other value the attribute
access raises, modelled as `none` at the outer level. -/
def pyDictGet (j : JVal) (k : String) : Option (Option JVal) :=
  match j with
  | JVal.obj fields => some ((fields.find? (fun kv => kv.1 == k)).map Prod.snd)
  | _ => none

/-- The observable part of the HTTP response inside `send_request`:
`resp.status_code`, `resp.text`, and `resp.json()` modelled as `some` of the
parsed value when the body is valid JSON and `none` when `resp.json()` would
raise. -/
structure HttpResponse where
  status_code : Nat
  text : String
  json : Option JVal

/-- What `send_request` prints and the exit code of the process afterwards. -/
structure ProcOutput where
  lines : List String
  exitCode : Nat
deriving DecidableEq

/-- `resp.ok` from the requests library: true exactly when
`resp.raise_for_status()` would not raise, i.e. `status_code < 400`. -/
def resp_ok (resp : HttpResponse) : Bool := resp.status_code < 400

/-- The response-handling tail of `send_request(user, password, url, data)`:
on `resp.ok`, print the confirmation and `resp.json().get('webUrl')` (the
function returns and the process later exits 0); otherwise print the header,
the status code, then `resp.json()` — falling back to `resp.text` when JSON
decoding raises — and `exit(1)`.  `none` models an uncaught exception
(`resp.json()` raising on the success path). -/
def send_request_result (resp : HttpResponse) : Option ProcOutput :=
  if resp_ok resp then
    match resp.json with
    | some j =>
      match pyDictGet j "webUrl" with
      | some v => some ⟨["Build started. View status at", pyPrintOpt v], 0⟩
      | none => none
    | none => none
  else
    some ⟨["Could not start build:", toString resp.status_code] ++
      (match resp.json with
       | some j => [pyReprJ j]
       | none => [resp.text]), 1⟩


/-- One serialized property element for a single map entry, exactly as
`_REQUESTPROPERTYBASE` formats it. -/
def prop_fragment (kv : String × String) : String := _REQUESTPROPERTYBASE kv.1 kv.2

/-- The property formatter's output as the spec describes it: one serialized
property element per map entry, concatenated in iteration order. -/
def concat_fragments : List (String × String) → String
  | [] => ""
  | kv :: rest => prop_fragment kv ++ concat_fragments rest

/-- The request builder's output as the spec describes it: the fixed template
with the personal flag serialized as the lowercase string form of the boolean,
the properties section holding exactly the two implicit properties `remote`
and `branch` followed by every supplied property in order. -/
def xml_of_request (buildid : String) (personal : Bool) (branch remote : String)
    (userProps : List (String × String)) : String :=
  "\n<build personal=\"" ++ (if personal then "true" else "false")
    ++ "\" branchName=\"" ++ branch
    ++ "\">\n  <buildType id=\"" ++ buildid
    ++ "\"/>\n  <comment><text>Triggered from CLI</text></comment>\n  <properties>"
    ++ "\n    <property name=\"remote\" value=\"" ++ remote ++ "\"/>"
    ++ "\n    <property name=\"branch\" value=\"" ++ branch ++ "\"/>"
    ++ concat_fragments userProps
    ++ "\n  </properties>\n</build>\n"

/-- The part of the request document before the first embedding of the branch
argument; depends only on the personal flag. -/
def branch_ctx_a (personal : Bool) : String :=
  "\n<build personal=\"" ++ pyBoolLower personal ++ "\" branchName=\""

/-- The part of the request document between the two embeddings of the branch
argument; depends only on the buildid and the remote. -/
def branch_ctx_b (buildid remote : String) : String :=
  "\">\n  <buildType id=\"" ++ buildid
    ++ "\"/>\n  <comment><text>Triggered from CLI</text></comment>\n  <properties>"
    ++ "\n    <property name=\"remote\" value=\"" ++ remote ++ "\"/>"
    ++ "\n    <property name=\"branch\" value=\""

/-- The part of the request document after the second embedding of the branch
argument; depends only on the properties fragment. -/
def branch_ctx_c (props : Option String) : String :=
  "\"/>" ++ props_or_empty props ++ "\n  </properties>\n</build>\n"

/-- Whether `pat` occurs at the head of `cs`. -/
def leadsWith : List Char → List Char → Bool
  | [], _ => true
  | _ :: _, [] => false
  | p :: ps, c :: cs => p == c && leadsWith ps cs

/-- Whether `pat` occurs contiguously somewhere in the list. -/
def occursIn (pat : List Char) : List Char → Bool
  | [] => leadsWith pat []
  | c :: cs => leadsWith pat (c :: cs) || occursIn pat cs

/-- Whether `pat` occurs verbatim as a contiguous substring of `s`. -/
def strContains (s pat : String) : Bool := occursIn pat.toList s.toList

lemma dict_as_properties_go (ps : List (String × String)) (acc : String) :
    List.foldl (fun xml kv => xml ++ _REQUESTPROPERTYBASE kv.1 kv.2) acc ps
      = acc ++ concat_fragments ps := by
  induction ps generalizing acc with
  | nil => simp [concat_fragments, String.append_empty]
  | cons kv rest ih =>
      simp [concat_fragments, prop_fragment, List.foldl_cons, ih, String.append_assoc]

lemma dict_as_properties_eq_concat (ps : List (String × String)) :
    dict_as_properties ps = concat_fragments ps := by
  simpa [dict_as_properties, String.empty_append] using dict_as_properties_go ps ""

lemma request_xml_dict (buildid : String) (personal : Bool) (branch remote : String)
    (ps : List (String × String)) :
    request_xml buildid personal branch remote (some (dict_as_properties ps))
      = xml_of_request buildid personal branch remote ps := by
  simp [request_xml, xml_of_request, props_or_empty, pyBoolLower,
        dict_as_properties_eq_concat, String.append_assoc]

/-- C2: for every buildTypeId, personal flag, branch, remote and supplied
property map, the request builder's output contains exactly the two implicit
properties `remote` and `branch` with the argument values, followed by all
supplied properties in order, and the personal attribute is the lowercase
string form of the boolean flag. -/
theorem request_xml_implicit_props_and_personal :
    (∀ (buildid : String) (personal : Bool) (branch remote : String)
        (ps : List (String × String)),
      request_xml buildid personal branch remote (some (dict_as_properties ps))
        = xml_of_request buildid personal branch remote ps)
    ∧ pyBoolLower true = "true" ∧ pyBoolLower false = "false" :=
  ⟨fun buildid personal branch remote ps =>
      request_xml_dict buildid personal branch remote ps, rfl, rfl⟩

/-- C3: the property formatter maps a map with n entries to exactly n
serialized property elements, one per entry with the name and value embedded
verbatim, concatenated in iteration order; it is a total pure function. -/
theorem dict_as_properties_per_entry :
    (∀ ps : List (String × String), dict_as_properties ps = concat_fragments ps)
    ∧ dict_as_properties [] = ""
    ∧ (∀ (k v : String) (rest : List (String × String)),
        concat_fragments ((k, v) :: rest)
          = "\n    <property name=\"" ++ k ++ "\" value=\"" ++ v ++ "\"/>"
            ++ concat_fragments rest) :=
  ⟨dict_as_properties_eq_concat, rfl, fun _ _ _ => rfl⟩

/-- C4: the linux preset submits the document whose buildTypeId is the fixed
Linux constant and whose caller-supplied properties are exactly
`project-default-jdk` (the jdk wrapped in percent signs), `maven-goals`
(unchanged), and `maven-args` with the fixed maven prefix prepended. -/
theorem linux_preset_document :
    ∀ (personal : Bool) (branch remote maven_goals maven_args jdk : String),
      tc_linux_data personal branch remote maven_goals maven_args jdk
        = xml_of_request "JonasHaRequests_Neo4jCustom" personal branch remote
            [("project-default-jdk", "%" ++ jdk ++ "%"),
             ("maven-goals", maven_goals),
             ("maven-args",
              "-DfailIfNoTests=false -Dmaven.test.failure.ignore=true --show-version "
                ++ maven_args)] :=
  fun personal branch remote maven_goals maven_args jdk =>
    request_xml_dict "JonasHaRequests_Neo4jCustom" personal branch remote
      [("project-default-jdk", "%" ++ jdk ++ "%"),
       ("maven-goals", maven_goals),
       ("maven-args",
        "-DfailIfNoTests=false -Dmaven.test.failure.ignore=true --show-version "
          ++ maven_args)]

/-- C5: the har preset submits the document whose buildTypeId is the fixed
HA-robustness constant and whose only caller-supplied property is `run-args`
with the caller's arguments string. -/
theorem har_preset_document :
    ∀ (personal : Bool) (branch remote arguments : String),
      tc_har_data personal branch remote arguments
        = xml_of_request "JonasHaRequests_HarBranchArtifacts" personal branch remote
            [("run-args", arguments)] :=
  fun personal branch remote arguments =>
    request_xml_dict "JonasHaRequests_HarBranchArtifacts" personal branch remote
      [("run-args", arguments)]

/-- C6: `tc_mvn_args` returns its input with the fixed maven-argument string
prepended; in particular on "-Dfoo" the result is that fixed string followed
by "-Dfoo". -/
theorem tc_mvn_args_fixed :
    (∀ s : String,
      tc_mvn_args s
        = "-DfailIfNoTests=false -Dmaven.test.failure.ignore=true --show-version " ++ s)
    ∧ tc_mvn_args "-Dfoo"
        = "-DfailIfNoTests=false -Dmaven.test.failure.ignore=true --show-version -Dfoo" :=
  ⟨fun _ => rfl, by decide⟩

/-- C8: for buildTypeId "X", branch "feature/y", remote "origin" and an empty
property map, the request builder's output contains the substrings
`<buildType id="X"/>` and `branchName="feature/y"` verbatim, for either value
of the personal flag. -/
theorem request_xml_concrete_substrings :
    ∀ personal : Bool,
      strContains
          (request_xml "X" personal "feature/y" "origin" (some (dict_as_properties [])))
          "<buildType id=\"X\"/>" = true
      ∧ strContains
          (request_xml "X" personal "feature/y" "origin" (some (dict_as_properties [])))
          "branchName=\"feature/y\"" = true := by
  decide

/-- C9: passing `props=None` (the Python default) produces exactly the same
document as passing the empty string. -/
theorem request_xml_none_props_eq_empty :
    ∀ (buildid : String) (personal : Bool) (branch remote : String),
      request_xml buildid personal branch remote none
        = request_xml buildid personal branch remote (some "") :=
  fun _ _ _ _ => rfl

/-- C10: the request document embeds the branch argument at exactly two
substitution points — the branchName attribute and the implicit branch
property value — and both receive the identical string; the surrounding
context pieces do not depend on the branch. -/
theorem request_xml_branch_two_places :
    ∀ (buildid : String) (personal : Bool) (branch remote : String)
        (props : Option String),
      request_xml buildid personal branch remote props
        = branch_ctx_a personal ++ branch ++ branch_ctx_b buildid remote
            ++ branch ++ branch_ctx_c props := by
  intro buildid personal branch remote props
  simp [request_xml, branch_ctx_a, branch_ctx_b, branch_ctx_c, String.append_assoc]

/-- C1 counterexample: a 304 response is non-2xx, yet `send_request` takes the
success branch (requests' `resp.ok` holds for every status below 400), prints
the confirmation message instead of the status code, and the process exits
with code 0 rather than 1. -/
theorem send_request_non2xx_304_success_path :
    (¬ (200 ≤ 304 ∧ 304 ≤ 299))
    ∧ send_request_result ⟨304, "", some (JVal.obj [("webUrl", JVal.str "http://ci/x")])⟩
        = some ⟨["Build started. View status at", "http://ci/x"], 0⟩ :=
  ⟨by decide, by decide⟩

/-- C1 (amended): for every HTTP response with status code at least 400 (the
statuses on which requests' `resp.ok` is false), `send_request` prints the
status code, prints the body parsed as JSON when parsing succeeds and the raw
text body otherwise, and exits the process with code 1. -/
theorem send_request_error_status_reports_and_exits
    (resp : HttpResponse) (h : 400 ≤ resp.status_code) :
    send_request_result resp =
      some ⟨["Could not start build:", toString resp.status_code] ++
        (match resp.json with
         | some j => [pyReprJ j]
         | none => [resp.text]), 1⟩ := by
  have hlt : ¬ resp.status_code < 400 := Nat.not_lt.mpr h
  simp [send_request_result, resp_ok, hlt]

/-- C1 witness: on a 500 response whose body "boom" is not valid JSON, the
submitter prints the status code and the literal body, and exits with
code 1. -/
theorem send_request_error_witness_500_boom :
    send_request_result ⟨500, "boom", none⟩
      = some ⟨["Could not start build:", "500", "boom"], 1⟩ := by
  rw [send_request_error_status_reports_and_exits ⟨500, "boom", none⟩ (by decide)]
  decide

/-- C7: for every 2xx response whose body is a JSON object with a webUrl
field, `send_request` prints the confirmation message followed by that URL
and the process does not exit with an error code. -/
theorem send_request_success_prints_weburl (resp : HttpResponse)
    (fields : List (String × JVal)) (u : String)
    (h2 : 200 ≤ resp.status_code) (h3 : resp.status_code ≤ 299)
    (hj : resp.json = some (JVal.obj fields))
    (hu : (fields.find? (fun kv => kv.1 == "webUrl")).map Prod.snd
            = some (JVal.str u)) :
    send_request_result resp = some ⟨["Build started. View status at", u], 0⟩ := by
  have hok : resp.status_code < 400 := Nat.lt_of_le_of_lt h3 (by norm_num)
  simp [send_request_result, resp_ok, hok, hj, pyDictGet, hu, pyPrintOpt]

/-- C7 witness: a 200 response with body containing webUrl
http://ci/build/1 produces the confirmation lines and exit code 0. -/
theorem send_request_success_witness_200 :
    send_request_result
        ⟨200, "\x7b\"webUrl\": \"http://ci/build/1\"\x7d",
         some (JVal.obj [("webUrl", JVal.str "http://ci/build/1")])⟩
      = some ⟨["Build started. View status at", "http://ci/build/1"], 0⟩ :=
  send_request_success_prints_weburl _ [("webUrl", JVal.str "http://ci/build/1")]
    "http://ci/build/1" (by decide) (by decide) rfl rfl
